import Mathlib

/-!
Verification of the audit-log package surface: the `AuditLogClient` class
(src/client/audit-log.client.ts), the `createAuditLogClient` factory and
`validateConfig` (src/index.ts), and the schema created by
`initializeDatabase` (src/index.ts).

TypeScript values of type `string | null` (resp. optional string fields)
are embedded as `Option String`; JavaScript truthiness of such a value
(`!x` / `x || d`) is `isTruthy` below: `null`/`undefined` and the empty
string are falsy, every other string is truthy. Numeric option fields are
embedded as `Option Nat`, where the JavaScript-falsy value is `0`.
Thrown errors are embedded as `Except String`.
Fields of request/event/query records that the client code never reads
are carried opaquely in a single `rest : String` component, preserved
by the object-spread (`...event`) in the source.
-/

/-- JavaScript truthiness of a `string | null | undefined` value:
`null`/`undefined` and `""` are falsy. -/
def isTruthy : Option String → Bool
  | none => false
  | some s => !(s == "")

/-- `v || d` on a `string | undefined` value `v` with string default `d`. -/
def orDefaultStr (v : Option String) (d : String) : String :=
  match v with
  | none => d
  | some s => if s == "" then d else s

/-- `v || d` on a `number | undefined` value `v` with numeric default `d`
(JavaScript treats `0` as falsy). -/
def orDefaultNat (v : Option Nat) (d : Nat) : Nat :=
  match v with
  | none => d
  | some n => if n == 0 then d else n

/-- The private mutable state of an `AuditLogClient` instance:
`projectId` and `environmentId`, both initialised to `null`. -/
structure ClientState where
  projectId : Option String
  environmentId : Option String
deriving DecidableEq, Repr

/-- A `CreateEventRequest`: the client code reads and rewrites only
`project_id` and `environment_id` (both optional); all other fields are
carried unchanged in `rest`. -/
structure CreateEventRequest where
  project_id : Option String
  environment_id : Option String
  rest : String
deriving DecidableEq, Repr

/-- An `EventQuery`: as with requests, only the optional `project_id` and
`environment_id` are touched by the client; the other filter fields are
carried unchanged in `rest`. -/
structure EventQuery where
  project_id : Option String
  environment_id : Option String
  rest : String
deriving DecidableEq, Repr

/-- An event (resp. query) after the client has applied its context:
`project_id` and `environment_id` are definite strings. -/
structure ContextedEvent where
  project_id : String
  environment_id : String
  rest : String
deriving DecidableEq, Repr

/-- A query after the client has applied its context. -/
structure ContextedQuery where
  project_id : String
  environment_id : String
  rest : String
deriving DecidableEq, Repr

/-- The call an `AuditLogClient` method makes on the underlying
`EventService`, together with the exact arguments passed.
`Date` arguments are embedded as integer timestamps. -/
inductive ServiceCall where
  | createEvent (event : ContextedEvent)
  | createEvents (events : List ContextedEvent)
  | queryEvents (query : ContextedQuery)
  | getEvent (eventId : String) (projectId : String) (environmentId : String)
  | validateEvents (projectId environmentId : String) (startTime endTime : Int)
  | sealEvents (projectId environmentId : String) (upToTime : Int)
  | exportToWorm (projectId environmentId : String) (startTime endTime : Int)
deriving DecidableEq, Repr

/-- The message of the error thrown by `validateContext`. -/
def contextNotSetMsg : String :=
  "Context not set. Call setContext() before performing operations."

namespace AuditLogClient

/-- A freshly constructed client: both context fields are `null`. -/
def initialState : ClientState := { projectId := none, environmentId := none }

/-- `setContext(projectId, environmentId)`: stores both strings. -/
def setContext (_s : ClientState) (projectId environmentId : String) : ClientState :=
  { projectId := some projectId, environmentId := some environmentId }

/-- `validateContext()`: throws when `projectId` or `environmentId` is
falsy (`null` or the empty string). -/
def validateContext (s : ClientState) : Except String Unit :=
  if !(isTruthy s.projectId) || !(isTruthy s.environmentId) then
    .error contextNotSetMsg
  else
    .ok ()

/-- Whether both context fields are set to truthy values (the condition
under which `validateContext` passes). -/
def contextSet (s : ClientState) : Bool :=
  isTruthy s.projectId && isTruthy s.environmentId

/-- The context application performed by `createEvent`/`createEvents`:
`{ ...event, project_id: event.project_id || this.projectId!,
   environment_id: event.environment_id || this.environmentId! }`. -/
def applyContextEvent (s : ClientState) (event : CreateEventRequest) : ContextedEvent :=
  { project_id := orDefaultStr event.project_id (s.projectId.getD "")
    environment_id := orDefaultStr event.environment_id (s.environmentId.getD "")
    rest := event.rest }

/-- The context application performed by `queryEvents`. -/
def applyContextQuery (s : ClientState) (query : EventQuery) : ContextedQuery :=
  { project_id := orDefaultStr query.project_id (s.projectId.getD "")
    environment_id := orDefaultStr query.environment_id (s.environmentId.getD "")
    rest := query.rest }

/-- `createEvent(event)`: validate context, apply it, delegate. -/
def createEvent (s : ClientState) (event : CreateEventRequest) : Except String ServiceCall := do
  validateContext s
  .ok (.createEvent (applyContextEvent s event))

/-- `createEvents(events)`: validate context, apply it to every element,
delegate. -/
def createEvents (s : ClientState) (events : List CreateEventRequest) :
    Except String ServiceCall := do
  validateContext s
  .ok (.createEvents (events.map (applyContextEvent s)))

/-- `queryEvents(query)`: validate context, apply it, delegate. -/
def queryEvents (s : ClientState) (query : EventQuery) : Except String ServiceCall := do
  validateContext s
  .ok (.queryEvents (applyContextQuery s query))

/-- `getEvent(eventId)`: validate context, delegate with the bound
project and environment. -/
def getEvent (s : ClientState) (eventId : String) : Except String ServiceCall := do
  validateContext s
  .ok (.getEvent eventId (s.projectId.getD "") (s.environmentId.getD ""))

/-- `validateEvents(startTime, endTime)`: validate context, delegate. -/
def validateEvents (s : ClientState) (startTime endTime : Int) : Except String ServiceCall := do
  validateContext s
  .ok (.validateEvents (s.projectId.getD "") (s.environmentId.getD "") startTime endTime)

/-- `sealEvents(upToTime)`: validate context, delegate. -/
def sealEvents (s : ClientState) (upToTime : Int) : Except String ServiceCall := do
  validateContext s
  .ok (.sealEvents (s.projectId.getD "") (s.environmentId.getD "") upToTime)

/-- `exportToWorm(startTime, endTime)`: validate context, delegate. -/
def exportToWorm (s : ClientState) (startTime endTime : Int) : Except String ServiceCall := do
  validateContext s
  .ok (.exportToWorm (s.projectId.getD "") (s.environmentId.getD "") startTime endTime)

end AuditLogClient

/-- `validateContext` passes exactly when the context is set. -/
theorem validateContext_eq (s : ClientState) :
    AuditLogClient.validateContext s =
      (if AuditLogClient.contextSet s then .ok () else .error contextNotSetMsg) := by
  unfold AuditLogClient.validateContext AuditLogClient.contextSet
  cases hp : isTruthy s.projectId <;> cases he : isTruthy s.environmentId <;> simp

/-- Helper: with the context unset, every operation throws the
context-missing error. -/
theorem ops_error_of_unset (s : ClientState) (ev : CreateEventRequest)
    (evs : List CreateEventRequest) (q : EventQuery) (eid : String) (t1 t2 : Int)
    (h : AuditLogClient.contextSet s = false) :
    AuditLogClient.createEvent s ev = .error contextNotSetMsg ∧
    AuditLogClient.createEvents s evs = .error contextNotSetMsg ∧
    AuditLogClient.queryEvents s q = .error contextNotSetMsg ∧
    AuditLogClient.getEvent s eid = .error contextNotSetMsg ∧
    AuditLogClient.validateEvents s t1 t2 = .error contextNotSetMsg ∧
    AuditLogClient.sealEvents s t1 = .error contextNotSetMsg ∧
    AuditLogClient.exportToWorm s t1 t2 = .error contextNotSetMsg := by
  simp [AuditLogClient.createEvent, AuditLogClient.createEvents,
    AuditLogClient.queryEvents, AuditLogClient.getEvent, AuditLogClient.validateEvents,
    AuditLogClient.sealEvents, AuditLogClient.exportToWorm, validateContext_eq, h,
    Except.bind, bind]

/-- Helper: with the context set, every operation delegates to the event
service with the context applied. -/
theorem ops_delegate_of_set (s : ClientState) (ev : CreateEventRequest)
    (evs : List CreateEventRequest) (q : EventQuery) (eid : String) (t1 t2 : Int)
    (h : AuditLogClient.contextSet s = true) :
    AuditLogClient.createEvent s ev =
      .ok (.createEvent (AuditLogClient.applyContextEvent s ev)) ∧
    AuditLogClient.createEvents s evs =
      .ok (.createEvents (evs.map (AuditLogClient.applyContextEvent s))) ∧
    AuditLogClient.queryEvents s q =
      .ok (.queryEvents (AuditLogClient.applyContextQuery s q)) ∧
    AuditLogClient.getEvent s eid =
      .ok (.getEvent eid (s.projectId.getD "") (s.environmentId.getD "")) ∧
    AuditLogClient.validateEvents s t1 t2 =
      .ok (.validateEvents (s.projectId.getD "") (s.environmentId.getD "") t1 t2) ∧
    AuditLogClient.sealEvents s t1 =
      .ok (.sealEvents (s.projectId.getD "") (s.environmentId.getD "") t1) ∧
    AuditLogClient.exportToWorm s t1 t2 =
      .ok (.exportToWorm (s.projectId.getD "") (s.environmentId.getD "") t1 t2) := by
  simp [AuditLogClient.createEvent, AuditLogClient.createEvents,
    AuditLogClient.queryEvents, AuditLogClient.getEvent, AuditLogClient.validateEvents,
    AuditLogClient.sealEvents, AuditLogClient.exportToWorm, validateContext_eq, h,
    Except.bind, bind]

/-- C1: Every public operation of `AuditLogClient` (`createEvent`,
`createEvents`, `queryEvents`, `getEvent`, `validateEvents`, `sealEvents`,
`exportToWorm`) fails with the context-missing error — invoking no service
call — when the context is not set (a field null or empty), and delegates
to the event service when both fields are bound to non-empty strings. -/
theorem client_ops_require_context (s : ClientState) (ev : CreateEventRequest)
    (evs : List CreateEventRequest) (q : EventQuery) (eid : String) (t1 t2 : Int) :
    (AuditLogClient.contextSet s = false →
      AuditLogClient.createEvent s ev = .error contextNotSetMsg ∧
      AuditLogClient.createEvents s evs = .error contextNotSetMsg ∧
      AuditLogClient.queryEvents s q = .error contextNotSetMsg ∧
      AuditLogClient.getEvent s eid = .error contextNotSetMsg ∧
      AuditLogClient.validateEvents s t1 t2 = .error contextNotSetMsg ∧
      AuditLogClient.sealEvents s t1 = .error contextNotSetMsg ∧
      AuditLogClient.exportToWorm s t1 t2 = .error contextNotSetMsg) ∧
    (AuditLogClient.contextSet s = true →
      AuditLogClient.createEvent s ev =
        .ok (.createEvent (AuditLogClient.applyContextEvent s ev)) ∧
      AuditLogClient.createEvents s evs =
        .ok (.createEvents (evs.map (AuditLogClient.applyContextEvent s))) ∧
      AuditLogClient.queryEvents s q =
        .ok (.queryEvents (AuditLogClient.applyContextQuery s q)) ∧
      AuditLogClient.getEvent s eid =
        .ok (.getEvent eid (s.projectId.getD "") (s.environmentId.getD "")) ∧
      AuditLogClient.validateEvents s t1 t2 =
        .ok (.validateEvents (s.projectId.getD "") (s.environmentId.getD "") t1 t2) ∧
      AuditLogClient.sealEvents s t1 =
        .ok (.sealEvents (s.projectId.getD "") (s.environmentId.getD "") t1) ∧
      AuditLogClient.exportToWorm s t1 t2 =
        .ok (.exportToWorm (s.projectId.getD "") (s.environmentId.getD "") t1 t2)) := by
  exact ⟨ops_error_of_unset s ev evs q eid t1 t2, ops_delegate_of_set s ev evs q eid t1 t2⟩

/-- Witness for C1 at concrete inputs: with context `("p1", "env1")` set,
`createEvent` delegates; with no context, it fails with the
context-missing error. -/
theorem client_ops_require_context_witness :
    AuditLogClient.createEvent { projectId := some "p1", environmentId := some "env1" }
        { project_id := none, environment_id := none, rest := "r" } =
      .ok (.createEvent { project_id := "p1", environment_id := "env1", rest := "r" }) ∧
    AuditLogClient.createEvent { projectId := none, environmentId := none }
        { project_id := none, environment_id := none, rest := "r" } =
      .error contextNotSetMsg := by
  refine ⟨?_, ?_⟩
  · exact ((client_ops_require_context
      { projectId := some "p1", environmentId := some "env1" }
      { project_id := none, environment_id := none, rest := "r" } [ ]
      { project_id := none, environment_id := none, rest := "q" } "e" 0 0).2
      (by decide)).1
  · exact ((client_ops_require_context
      { projectId := none, environmentId := none }
      { project_id := none, environment_id := none, rest := "r" } [ ]
      { project_id := none, environment_id := none, rest := "q" } "e" 0 0).1
      (by decide)).1

/-- C2: On a client whose context is `(p, e)` (set via `setContext` with
non-empty strings), `createEvent`, `createEvents` and `queryEvents` forward
a non-empty supplied `project_id`/`environment_id` unchanged and substitute
the bound context value when the field is absent or empty; all other fields
(`rest`) are forwarded untouched. -/
theorem context_substitution (p e : String) (hp : p ≠ "") (he : e ≠ "")
    (ev : CreateEventRequest) (evs : List CreateEventRequest) (q : EventQuery) :
    let s : ClientState := { projectId := some p, environmentId := some e }
    AuditLogClient.createEvent s ev =
      .ok (.createEvent (AuditLogClient.applyContextEvent s ev)) ∧
    AuditLogClient.createEvents s evs =
      .ok (.createEvents (evs.map (AuditLogClient.applyContextEvent s))) ∧
    AuditLogClient.queryEvents s q =
      .ok (.queryEvents (AuditLogClient.applyContextQuery s q)) ∧
    (∀ r : CreateEventRequest,
      (∀ v, r.project_id = some v → v ≠ "" →
        (AuditLogClient.applyContextEvent s r).project_id = v) ∧
      ((r.project_id = none ∨ r.project_id = some "") →
        (AuditLogClient.applyContextEvent s r).project_id = p) ∧
      (∀ v, r.environment_id = some v → v ≠ "" →
        (AuditLogClient.applyContextEvent s r).environment_id = v) ∧
      ((r.environment_id = none ∨ r.environment_id = some "") →
        (AuditLogClient.applyContextEvent s r).environment_id = e) ∧
      (AuditLogClient.applyContextEvent s r).rest = r.rest) ∧
    (∀ r : EventQuery,
      (∀ v, r.project_id = some v → v ≠ "" →
        (AuditLogClient.applyContextQuery s r).project_id = v) ∧
      ((r.project_id = none ∨ r.project_id = some "") →
        (AuditLogClient.applyContextQuery s r).project_id = p) ∧
      (∀ v, r.environment_id = some v → v ≠ "" →
        (AuditLogClient.applyContextQuery s r).environment_id = v) ∧
      ((r.environment_id = none ∨ r.environment_id = some "") →
        (AuditLogClient.applyContextQuery s r).environment_id = e) ∧
      (AuditLogClient.applyContextQuery s r).rest = r.rest) := by
  intro s
  have hset : AuditLogClient.contextSet s = true := by
    simp [AuditLogClient.contextSet, isTruthy, s, hp, he]
  have hops := ops_delegate_of_set s ev evs q "" 0 0 hset
  refine ⟨hops.1, hops.2.1, hops.2.2.1, ?_, ?_⟩
  · intro r
    refine ⟨?_, ?_, ?_, ?_, rfl⟩
    · intro v hv hne
      simp [AuditLogClient.applyContextEvent, orDefaultStr, hv, hne]
    · intro hcases
      rcases hcases with h0 | h0 <;>
        simp [AuditLogClient.applyContextEvent, orDefaultStr, h0, s]
    · intro v hv hne
      simp [AuditLogClient.applyContextEvent, orDefaultStr, hv, hne]
    · intro hcases
      rcases hcases with h0 | h0 <;>
        simp [AuditLogClient.applyContextEvent, orDefaultStr, h0, s]
  · intro r
    refine ⟨?_, ?_, ?_, ?_, rfl⟩
    · intro v hv hne
      simp [AuditLogClient.applyContextQuery, orDefaultStr, hv, hne]
    · intro hcases
      rcases hcases with h0 | h0 <;>
        simp [AuditLogClient.applyContextQuery, orDefaultStr, h0, s]
    · intro v hv hne
      simp [AuditLogClient.applyContextQuery, orDefaultStr, hv, hne]
    · intro hcases
      rcases hcases with h0 | h0 <;>
        simp [AuditLogClient.applyContextQuery, orDefaultStr, h0, s]

/-- Witness for C2: context `("p1", "env1")`; a request supplying
`project_id = "other"` keeps it, one supplying an empty `environment_id`
gets `"env1"` substituted. -/
theorem context_substitution_witness :
    AuditLogClient.createEvent { projectId := some "p1", environmentId := some "env1" }
        { project_id := some "other", environment_id := some "", rest := "r" } =
      .ok (.createEvent { project_id := "other", environment_id := "env1", rest := "r" }) := by
  have h := context_substitution "p1" "env1" (by decide) (by decide)
    { project_id := some "other", environment_id := some "", rest := "r" } [ ]
    { project_id := none, environment_id := none, rest := "q" }
  exact h.1

/-- C9: `setContext` with an empty project or environment string leaves the
client in a state every operation still rejects with the context-missing
error: empty strings are treated as unset context. -/
theorem setContext_empty_is_unset (s : ClientState) (p e : String)
    (h : p = "" ∨ e = "") (ev : CreateEventRequest) (evs : List CreateEventRequest)
    (q : EventQuery) (eid : String) (t1 t2 : Int) :
    let s2 := AuditLogClient.setContext s p e
    AuditLogClient.contextSet s2 = false ∧
    AuditLogClient.validateContext s2 = .error contextNotSetMsg ∧
    AuditLogClient.createEvent s2 ev = .error contextNotSetMsg ∧
    AuditLogClient.createEvents s2 evs = .error contextNotSetMsg ∧
    AuditLogClient.queryEvents s2 q = .error contextNotSetMsg ∧
    AuditLogClient.getEvent s2 eid = .error contextNotSetMsg ∧
    AuditLogClient.validateEvents s2 t1 t2 = .error contextNotSetMsg ∧
    AuditLogClient.sealEvents s2 t1 = .error contextNotSetMsg ∧
    AuditLogClient.exportToWorm s2 t1 t2 = .error contextNotSetMsg := by
  intro s2
  have hns : AuditLogClient.contextSet s2 = false := by
    rcases h with h0 | h0 <;>
      simp [s2, AuditLogClient.setContext, AuditLogClient.contextSet, isTruthy, h0]
  have hops := ops_error_of_unset s2 ev evs q eid t1 t2 hns
  refine ⟨hns, ?_, hops.1, hops.2.1, hops.2.2.1, hops.2.2.2.1, hops.2.2.2.2.1,
    hops.2.2.2.2.2.1, hops.2.2.2.2.2.2⟩
  rw [validateContext_eq, hns]
  simp

/-- Witness for C9: `setContext("", "env1")` still leaves `createEvent`
failing with the context-missing error. -/
theorem setContext_empty_is_unset_witness :
    AuditLogClient.createEvent
        (AuditLogClient.setContext AuditLogClient.initialState "" "env1")
        { project_id := none, environment_id := none, rest := "r" } =
      .error contextNotSetMsg := by
  have h := setContext_empty_is_unset AuditLogClient.initialState "" "env1"
    (Or.inl rfl) { project_id := none, environment_id := none, rest := "r" } [ ]
    { project_id := none, environment_id := none, rest := "q" } "e" 0 0
  exact h.2.2.1

/-!
The `createAuditLogClient` factory and `validateConfig` (src/index.ts).
The `database` and `crypto` sections are embedded as `Option` structures
so that the `!config.database` / `!config.crypto` runtime checks are
expressible. `password` is declared by the TypeScript interface but never
read by `validateConfig`; it is embedded as `Option String` so that its
absence can be stated. `port` is a number: its JavaScript-falsy value
is `0`.
-/

/-- The `database` section of `AuditLogConfig`. -/
structure DatabaseOpts where
  host : String
  port : Nat
  user : String
  password : Option String
  database : String
  ssl : Option Bool
  poolSize : Option Nat
  idleTimeoutMillis : Option Nat
  debug : Option Bool
deriving DecidableEq, Repr

/-- The `crypto` section of `AuditLogConfig`. `privateKey` and `publicKey`
are required by the interface; a missing key is embedded as `""` (the
JavaScript-falsy string the validation check catches). -/
structure CryptoOpts where
  algorithm : Option String
  hashAlgorithm : Option String
  privateKey : String
  publicKey : String
deriving DecidableEq, Repr

/-- The optional `application` section of `AuditLogConfig`. -/
structure ApplicationOpts where
  maxBulkEvents : Option Nat
  createEventTimeout : Option Nat
deriving DecidableEq, Repr

/-- The optional `context` section of `AuditLogConfig`. -/
structure ContextOpts where
  projectId : Option String
  environmentId : Option String
deriving DecidableEq, Repr

/-- `AuditLogConfig`, restricted to the sections the factory reads
(the retention/validation options are never consulted by
`createAuditLogClient` or `validateConfig`). -/
structure AuditLogConfig where
  database : Option DatabaseOpts
  crypto : Option CryptoOpts
  application : Option ApplicationOpts
  context : Option ContextOpts
deriving DecidableEq, Repr

/-- The options the factory passes to the `CryptoService` constructor. -/
structure CryptoServiceConfig where
  algorithm : String
  hashAlgorithm : String
  privateKey : String
  publicKey : String
deriving DecidableEq, Repr

/-- The numeric settings the factory passes to the `EventService`
constructor. -/
structure EventServiceConfig where
  maxBulkEvents : Nat
  createEventTimeout : Nat
deriving DecidableEq, Repr

/-- The result of `createAuditLogClient`: the constructed service
configurations together with the returned client's state. -/
structure BuiltClient where
  cryptoConfig : CryptoServiceConfig
  eventConfig : EventServiceConfig
  client : ClientState
deriving DecidableEq, Repr

/-- `validateConfig(config)`: checks `database` exists, its `host`,
`port`, `user` and `database` properties are truthy, `crypto` exists and
its `privateKey` and `publicKey` are truthy. -/
def validateConfig (config : AuditLogConfig) : Except String Unit :=
  match config.database with
  | none => .error "Database configuration is required"
  | some db =>
    if db.host == "" then .error "Database.host is required"
    else if db.port == 0 then .error "Database.port is required"
    else if db.user == "" then .error "Database.user is required"
    else if db.database == "" then .error "Database.database is required"
    else
      match config.crypto with
      | none => .error "Crypto configuration is required"
      | some c =>
        if c.privateKey == "" then .error "Crypto.privateKey is required"
        else if c.publicKey == "" then .error "Crypto.publicKey is required"
        else .ok ()

/-- `createAuditLogClient(config)`: validate, build the `CryptoService`
options with `||`-defaults `RSA-SHA256` / `sha256`, build the
`EventService` with `||`-defaults `1000` / `5000`, and bind the default
context exactly when `config.context?.projectId` and
`config.context?.environmentId` are both truthy. -/
def createAuditLogClient (config : AuditLogConfig) : Except String BuiltClient := do
  validateConfig config
  match config.crypto with
  | none => .error "Crypto configuration is required"
  | some crypto =>
    let cryptoConfig : CryptoServiceConfig :=
      { algorithm := orDefaultStr crypto.algorithm "RSA-SHA256"
        hashAlgorithm := orDefaultStr crypto.hashAlgorithm "sha256"
        privateKey := crypto.privateKey
        publicKey := crypto.publicKey }
    let eventConfig : EventServiceConfig :=
      { maxBulkEvents := orDefaultNat (config.application.bind (fun a => a.maxBulkEvents)) 1000
        createEventTimeout :=
          orDefaultNat (config.application.bind (fun a => a.createEventTimeout)) 5000 }
    let client : ClientState :=
      match config.context with
      | some ctx =>
        if isTruthy ctx.projectId && isTruthy ctx.environmentId then
          AuditLogClient.setContext AuditLogClient.initialState
            (ctx.projectId.getD "") (ctx.environmentId.getD "")
        else AuditLogClient.initialState
      | none => AuditLogClient.initialState
    .ok { cryptoConfig := cryptoConfig, eventConfig := eventConfig, client := client }

/-- Helper: inverting a successful validation — the sections exist and the
checked properties are truthy. -/
theorem validateConfig_ok_inv (config : AuditLogConfig)
    (h : validateConfig config = .ok ()) :
    ∃ db c, config.database = some db ∧ config.crypto = some c ∧
      db.host ≠ "" ∧ db.port ≠ 0 ∧ db.user ≠ "" ∧ db.database ≠ "" ∧
      c.privateKey ≠ "" ∧ c.publicKey ≠ "" := by
  unfold validateConfig at h
  split at h
  · exact absurd h (by simp)
  · rename_i db hdb
    split_ifs at h with h1 h2 h3 h4
    split at h
    · exact Except.noConfusion h
    · rename_i c hc
      split_ifs at h with h5 h6
      refine ⟨db, c, hdb, hc, ?_⟩
      simp only [beq_iff_eq] at h1 h2 h3 h4 h5 h6
      exact ⟨h1, h2, h3, h4, h5, h6⟩

/-- Helper: the exact shape of a successfully constructed client. -/
theorem createAuditLogClient_ok_shape (config : AuditLogConfig) (b : BuiltClient)
    (h : createAuditLogClient config = .ok b) :
    validateConfig config = .ok () ∧
    ∃ crypto, config.crypto = some crypto ∧
      b.cryptoConfig =
        { algorithm := orDefaultStr crypto.algorithm "RSA-SHA256"
          hashAlgorithm := orDefaultStr crypto.hashAlgorithm "sha256"
          privateKey := crypto.privateKey
          publicKey := crypto.publicKey } ∧
      b.eventConfig =
        { maxBulkEvents :=
            orDefaultNat (config.application.bind (fun a => a.maxBulkEvents)) 1000
          createEventTimeout :=
            orDefaultNat (config.application.bind (fun a => a.createEventTimeout)) 5000 } ∧
      b.client =
        (match config.context with
          | some ctx =>
            if isTruthy ctx.projectId && isTruthy ctx.environmentId then
              AuditLogClient.setContext AuditLogClient.initialState
                (ctx.projectId.getD "") (ctx.environmentId.getD "")
            else AuditLogClient.initialState
          | none => AuditLogClient.initialState) := by
  unfold createAuditLogClient at h
  cases hv : validateConfig config with
  | error e => rw [hv] at h; exact absurd h (by simp [Except.bind, bind])
  | ok u =>
    rw [hv] at h
    cases u
    refine ⟨rfl, ?_⟩
    cases hc : config.crypto with
    | none => rw [hc] at h; exact absurd h (by simp [Except.bind, bind])
    | some crypto =>
      rw [hc] at h
      simp only [Except.bind, bind] at h
      cases h
      exact ⟨crypto, rfl, rfl, rfl, rfl⟩

/-- Helper: a truthy `Option String` is recovered by `getD ""`. -/
theorem getD_of_truthy (o : Option String) (h : isTruthy o = true) :
    some (o.getD "") = o := by
  cases o with
  | none => simp [isTruthy] at h
  | some s => rfl

/-- C10: configuration validation never requires `database.password`: any
configuration with truthy `host`, `port`, `user` and `database` and truthy
crypto keys validates, whatever `password` (absent, empty or set) and the
other database options are. -/
theorem validateConfig_ignores_password
    (host user dbname : String) (port : Nat) (password : Option String)
    (ssl : Option Bool) (poolSize idle : Option Nat) (dbg : Option Bool)
    (crypto : CryptoOpts) (app : Option ApplicationOpts) (ctx : Option ContextOpts)
    (hh : host ≠ "") (hp : port ≠ 0) (hu : user ≠ "") (hd : dbname ≠ "")
    (hpriv : crypto.privateKey ≠ "") (hpub : crypto.publicKey ≠ "") :
    validateConfig
      { database := some
          { host := host, port := port, user := user, password := password,
            database := dbname, ssl := ssl, poolSize := poolSize,
            idleTimeoutMillis := idle, debug := dbg }
        crypto := some crypto, application := app, context := ctx } = .ok () := by
  unfold validateConfig
  simp [hh, hp, hu, hd, hpriv, hpub]

/-- Witness for C10: validation succeeds with `password` absent. -/
theorem validateConfig_ignores_password_witness :
    validateConfig
      { database := some
          { host := "localhost", port := 5432, user := "u", password := none,
            database := "audit", ssl := none, poolSize := none,
            idleTimeoutMillis := none, debug := none }
        crypto := some
          { algorithm := none, hashAlgorithm := none,
            privateKey := "priv", publicKey := "pub" }
        application := none, context := none } = .ok () :=
  validateConfig_ignores_password "localhost" "u" "audit" 5432 none none none none none
    { algorithm := none, hashAlgorithm := none, privateKey := "priv", publicKey := "pub" }
    none none (by decide) (by decide) (by decide) (by decide) (by decide) (by decide)

/-- C4: `createAuditLogClient` fails whenever `crypto.privateKey` or
`crypto.publicKey` is missing (the crypto section absent, or a key falsy),
and every accepted configuration constructs the `CryptoService` with
algorithm `RSA-SHA256` and hash algorithm `sha256` when those options are
omitted. -/
theorem crypto_required_and_defaults (config : AuditLogConfig) :
    ((config.crypto = none ∨
        ∃ c, config.crypto = some c ∧ (c.privateKey = "" ∨ c.publicKey = "")) →
      (createAuditLogClient config).isOk = false) ∧
    (∀ b, createAuditLogClient config = .ok b →
      ∀ c, config.crypto = some c →
        (c.algorithm = none → b.cryptoConfig.algorithm = "RSA-SHA256") ∧
        (c.hashAlgorithm = none → b.cryptoConfig.hashAlgorithm = "sha256")) := by
  constructor
  · intro hmiss
    cases hres : createAuditLogClient config with
    | error e => rfl
    | ok b =>
      exfalso
      obtain ⟨hv, crypto, hc, -, -, -⟩ := createAuditLogClient_ok_shape config b hres
      obtain ⟨db, c, hdb, hc2, -, -, -, -, hpriv, hpub⟩ := validateConfig_ok_inv config hv
      rcases hmiss with h0 | ⟨c0, hc0, hbad⟩
      · rw [h0] at hc2; exact Option.noConfusion hc2
      · rw [hc0] at hc2
        injection hc2 with he
        subst he
        rcases hbad with hb | hb
        · exact hpriv hb
        · exact hpub hb
  · intro b hb c hc
    obtain ⟨-, crypto, hcr, hcc, -, -⟩ := createAuditLogClient_ok_shape config b hb
    rw [hc] at hcr
    injection hcr with he
    subst he
    refine ⟨fun ha => ?_, fun hha => ?_⟩
    · rw [hcc]; simp [orDefaultStr, ha]
    · rw [hcc]; simp [orDefaultStr, hha]

/-- Witness for C4: a configuration with no crypto section is rejected;
one with keys but no algorithm options gets the defaults. -/
theorem crypto_required_and_defaults_witness :
    (createAuditLogClient
      { database := some
          { host := "localhost", port := 5432, user := "u", password := some "pw",
            database := "audit", ssl := none, poolSize := none,
            idleTimeoutMillis := none, debug := none }
        crypto := none, application := none, context := none }).isOk = false :=
  (crypto_required_and_defaults
    { database := some
        { host := "localhost", port := 5432, user := "u", password := some "pw",
          database := "audit", ssl := none, poolSize := none,
          idleTimeoutMillis := none, debug := none }
      crypto := none, application := none, context := none }).1 (Or.inl rfl)

/-- A configuration supplying `maxBulkEvents = 0` and
`createEventTimeout = 7`. -/
def cfgZeroBulk : AuditLogConfig :=
  { database := some
      { host := "localhost", port := 5432, user := "u", password := some "pw",
        database := "audit", ssl := none, poolSize := none,
        idleTimeoutMillis := none, debug := none }
    crypto := some
      { algorithm := none, hashAlgorithm := none,
        privateKey := "priv", publicKey := "pub" }
    application := some { maxBulkEvents := some 0, createEventTimeout := some 7 }
    context := none }

/-- C3 counterexample: `cfgZeroBulk` supplies both application settings
(`maxBulkEvents = 0`, `createEventTimeout = 7`) and is accepted, yet the
`EventService` is constructed with `maxBulkEvents = 1000`, not the supplied
`0` — JavaScript `||` treats a supplied `0` as missing. -/
theorem maxBulk_supplied_zero_not_used :
    (createAuditLogClient cfgZeroBulk).isOk = true ∧
    (createAuditLogClient cfgZeroBulk).toOption.map
        (fun b => b.eventConfig.maxBulkEvents) = some 1000 ∧
    (createAuditLogClient cfgZeroBulk).toOption.map
        (fun b => b.eventConfig.maxBulkEvents) ≠ some 0 := by
  refine ⟨by decide, by decide, by decide⟩

/-- C3 (amended): for every accepted configuration, an omitted — or
zero — `application.maxBulkEvents` (resp. `createEventTimeout`) yields an
`EventService` with `1000` (resp. `5000`); a supplied nonzero value is used
unchanged. -/
theorem eventService_defaults (config : AuditLogConfig) (b : BuiltClient)
    (h : createAuditLogClient config = .ok b) :
    ((config.application.bind (fun a => a.maxBulkEvents) = none ∨
      config.application.bind (fun a => a.maxBulkEvents) = some 0) →
        b.eventConfig.maxBulkEvents = 1000) ∧
    (∀ n, n ≠ 0 → config.application.bind (fun a => a.maxBulkEvents) = some n →
        b.eventConfig.maxBulkEvents = n) ∧
    ((config.application.bind (fun a => a.createEventTimeout) = none ∨
      config.application.bind (fun a => a.createEventTimeout) = some 0) →
        b.eventConfig.createEventTimeout = 5000) ∧
    (∀ n, n ≠ 0 → config.application.bind (fun a => a.createEventTimeout) = some n →
        b.eventConfig.createEventTimeout = n) := by
  obtain ⟨-, crypto, -, -, hev, -⟩ := createAuditLogClient_ok_shape config b h
  rw [hev]
  refine ⟨?_, ?_, ?_, ?_⟩
  · rintro (h0 | h0) <;> simp [orDefaultNat, h0]
  · intro n hn h0
    simp [orDefaultNat, h0, hn]
  · rintro (h0 | h0) <;> simp [orDefaultNat, h0]
  · intro n hn h0
    simp [orDefaultNat, h0, hn]

/-- A configuration with no `application` section. -/
def cfgNoApp : AuditLogConfig :=
  { database := some
      { host := "localhost", port := 5432, user := "u", password := some "pw",
        database := "audit", ssl := none, poolSize := none,
        idleTimeoutMillis := none, debug := none }
    crypto := some
      { algorithm := none, hashAlgorithm := none,
        privateKey := "priv", publicKey := "pub" }
    application := none
    context := none }

/-- The client built from `cfgNoApp`. -/
def builtNoApp : BuiltClient :=
  { cryptoConfig :=
      { algorithm := "RSA-SHA256", hashAlgorithm := "sha256",
        privateKey := "priv", publicKey := "pub" }
    eventConfig := { maxBulkEvents := 1000, createEventTimeout := 5000 }
    client := { projectId := none, environmentId := none } }

/-- Witness for C3 (amended): omitting the `application` section yields
`maxBulkEvents = 1000` and `createEventTimeout = 5000`. -/
theorem eventService_defaults_witness :
    createAuditLogClient cfgNoApp = .ok builtNoApp ∧
    builtNoApp.eventConfig.maxBulkEvents = 1000 ∧
    builtNoApp.eventConfig.createEventTimeout = 5000 :=
  ⟨rfl,
   (eventService_defaults cfgNoApp builtNoApp rfl).1 (Or.inl rfl),
   (eventService_defaults cfgNoApp builtNoApp rfl).2.2.1 (Or.inl rfl)⟩

/-- C8: the factory binds the default context on the returned client
exactly when the configuration supplies both `context.projectId` and
`context.environmentId` as non-empty strings; otherwise the client comes
back with no context bound and every operation fails with the
context-missing error. -/
theorem factory_context_binding (config : AuditLogConfig) (b : BuiltClient)
    (h : createAuditLogClient config = .ok b)
    (ev : CreateEventRequest) (evs : List CreateEventRequest) (q : EventQuery)
    (eid : String) (t1 t2 : Int) :
    (AuditLogClient.contextSet b.client = true ↔
      ∃ ctx, config.context = some ctx ∧
        isTruthy ctx.projectId = true ∧ isTruthy ctx.environmentId = true) ∧
    (∀ ctx, config.context = some ctx →
      isTruthy ctx.projectId = true → isTruthy ctx.environmentId = true →
      b.client.projectId = ctx.projectId ∧ b.client.environmentId = ctx.environmentId) ∧
    (AuditLogClient.contextSet b.client = false →
      b.client = AuditLogClient.initialState ∧
      AuditLogClient.createEvent b.client ev = .error contextNotSetMsg ∧
      AuditLogClient.createEvents b.client evs = .error contextNotSetMsg ∧
      AuditLogClient.queryEvents b.client q = .error contextNotSetMsg ∧
      AuditLogClient.getEvent b.client eid = .error contextNotSetMsg ∧
      AuditLogClient.validateEvents b.client t1 t2 = .error contextNotSetMsg ∧
      AuditLogClient.sealEvents b.client t1 = .error contextNotSetMsg ∧
      AuditLogClient.exportToWorm b.client t1 t2 = .error contextNotSetMsg) := by
  obtain ⟨-, crypto, -, -, -, hclient⟩ := createAuditLogClient_ok_shape config b h
  have hinit : AuditLogClient.contextSet AuditLogClient.initialState = false := rfl
  split at hclient
  · rename_i ctx hctx
    by_cases hc : (isTruthy ctx.projectId && isTruthy ctx.environmentId) = true
    · rw [if_pos hc] at hclient
      have hp : isTruthy ctx.projectId = true := (Bool.and_eq_true _ _ |>.mp hc).1
      have he : isTruthy ctx.environmentId = true := (Bool.and_eq_true _ _ |>.mp hc).2
      have e1 : b.client.projectId = ctx.projectId := by
        rw [hclient]
        exact getD_of_truthy ctx.projectId hp
      have e2 : b.client.environmentId = ctx.environmentId := by
        rw [hclient]
        exact getD_of_truthy ctx.environmentId he
      have hset : AuditLogClient.contextSet b.client = true := by
        unfold AuditLogClient.contextSet
        rw [e1, e2]
        exact hc
      refine ⟨⟨fun _ => ⟨ctx, hctx, hp, he⟩, fun _ => hset⟩, ?_, ?_⟩
      · intro ctx2 hctx2 _ _
        rw [hctx] at hctx2
        injection hctx2 with he2
        subst he2
        exact ⟨e1, e2⟩
      · intro hfalse
        rw [hset] at hfalse
        exact Bool.noConfusion hfalse
    · rw [if_neg hc] at hclient
      have hset : AuditLogClient.contextSet b.client = false := by rw [hclient]; exact hinit
      refine ⟨⟨fun htrue => absurd (hset ▸ htrue) (by simp), ?_⟩, ?_, ?_⟩
      · rintro ⟨ctx2, hctx2, hp2, he2⟩
        rw [hctx] at hctx2
        injection hctx2 with he2eq
        subst he2eq
        exact absurd (by simp [hp2, he2]) hc
      · intro ctx2 hctx2 hp2 he2
        rw [hctx] at hctx2
        injection hctx2 with he2eq
        subst he2eq
        exact absurd (by simp [hp2, he2]) hc
      · intro _
        exact ⟨hclient, ops_error_of_unset b.client ev evs q eid t1 t2 hset⟩
  · rename_i hctx
    have hset : AuditLogClient.contextSet b.client = false := by rw [hclient]; exact hinit
    refine ⟨⟨fun htrue => absurd (hset ▸ htrue) (by simp), ?_⟩, ?_, ?_⟩
    · rintro ⟨ctx2, hctx2, -, -⟩
      rw [hctx] at hctx2
      exact Option.noConfusion hctx2
    · intro ctx2 hctx2 _ _
      rw [hctx] at hctx2
      exact Option.noConfusion hctx2
    · intro _
      exact ⟨hclient, ops_error_of_unset b.client ev evs q eid t1 t2 hset⟩

/-- Witness for C8: a configuration with context `("p1", "env1")` yields a
client whose context is bound to exactly those values. -/
theorem factory_context_binding_witness :
    AuditLogClient.contextSet
      { projectId := some "p1", environmentId := some "env1" } = true ∧
    ({ projectId := some "p1", environmentId := some "env1" } : ClientState).projectId =
      some "p1" := by
  have h : createAuditLogClient
      { database := some
          { host := "localhost", port := 5432, user := "u", password := some "pw",
            database := "audit", ssl := none, poolSize := none,
            idleTimeoutMillis := none, debug := none }
        crypto := some
          { algorithm := none, hashAlgorithm := none,
            privateKey := "priv", publicKey := "pub" }
        application := none
        context := some { projectId := some "p1", environmentId := some "env1" } } =
      .ok { cryptoConfig :=
              { algorithm := "RSA-SHA256", hashAlgorithm := "sha256",
                privateKey := "priv", publicKey := "pub" }
            eventConfig := { maxBulkEvents := 1000, createEventTimeout := 5000 }
            client := { projectId := some "p1", environmentId := some "env1" } } := rfl
  have hth := factory_context_binding _ _ h
    { project_id := none, environment_id := none, rest := "r" } [ ]
    { project_id := none, environment_id := none, rest := "q" } "e" 0 0
  refine ⟨hth.1.mpr ⟨_, rfl, by decide, by decide⟩, ?_⟩
  exact (hth.2.1 { projectId := some "p1", environmentId := some "env1" } rfl
    (by decide) (by decide)).1

/-- A committed event as stored in `audit_events`, restricted to the
fields a scoped lookup consults; the remaining columns are carried
opaquely in `rest`. -/
structure StoredEvent where
  id : String
  project_id : String
  environment_id : String
  rest : String
deriving DecidableEq, Repr

/-- Modelled from the spec: the `EventService.getEvent` implementation is
not under src/ (only its caller is); the spec describes it as
`get_event(id, project, env)` — "scoped lookup, returns the event or not
found". It is modelled as a scoped lookup over the stored events that
returns the event or `none`; a missing id is not an error. -/
def EventService.getEvent (store : List StoredEvent)
    (eventId projectId environmentId : String) : Option StoredEvent :=
  store.find? (fun ev =>
    ev.id == eventId && ev.project_id == projectId && ev.environment_id == environmentId)

/-- `AuditLogClient.getEvent` composed with the modelled service lookup:
`this.eventService.getEvent(eventId, this.projectId!, this.environmentId!)`
after `validateContext()`. -/
def AuditLogClient.getEventRun (s : ClientState) (store : List StoredEvent)
    (eventId : String) : Except String (Option StoredEvent) := do
  AuditLogClient.validateContext s
  .ok (EventService.getEvent store eventId (s.projectId.getD "") (s.environmentId.getD ""))

/-- C5: with the context `(p, e)` set, `getEvent` always returns a result
rather than throwing: the event — scoped to the bound project and
environment — when the lookup finds one, and `none` (not found) otherwise;
in particular an id absent from the store yields `none`, never an error. -/
theorem getEvent_total_and_scoped (p e : String) (hp : p ≠ "") (he : e ≠ "")
    (store : List StoredEvent) (eid : String) :
    AuditLogClient.getEventRun { projectId := some p, environmentId := some e } store eid =
      .ok (EventService.getEvent store eid p e) ∧
    (∀ ev, EventService.getEvent store eid p e = some ev →
      ev.id = eid ∧ ev.project_id = p ∧ ev.environment_id = e) ∧
    ((∀ ev ∈ store, ev.id ≠ eid) → EventService.getEvent store eid p e = none) := by
  refine ⟨?_, ?_, ?_⟩
  · have hset : AuditLogClient.contextSet
        { projectId := some p, environmentId := some e } = true := by
      simp [AuditLogClient.contextSet, isTruthy, hp, he]
    simp [AuditLogClient.getEventRun, validateContext_eq, hset, Except.bind, bind]
  · intro ev hev
    have hfound := List.find?_some hev
    simp only [Bool.and_eq_true, beq_iff_eq] at hfound
    exact ⟨hfound.1.1, hfound.1.2, hfound.2⟩
  · intro hmiss
    apply List.find?_eq_none.mpr
    intro ev hev
    simp [hmiss ev hev]

/-- Witness for C5: with context `("p1", "env1")` and a store holding one
event with a different id, looking up `"missing"` returns `none` without
an error. -/
theorem getEvent_total_and_scoped_witness :
    AuditLogClient.getEventRun { projectId := some "p1", environmentId := some "env1" }
        [{ id := "e1", project_id := "p1", environment_id := "env1", rest := "r" }]
        "missing" =
      .ok (EventService.getEvent
        [{ id := "e1", project_id := "p1", environment_id := "env1", rest := "r" }]
        "missing" "p1" "env1") ∧
    EventService.getEvent
        [{ id := "e1", project_id := "p1", environment_id := "env1", rest := "r" }]
        "missing" "p1" "env1" = none := by
  have h := getEvent_total_and_scoped "p1" "env1" (by decide) (by decide)
    [{ id := "e1", project_id := "p1", environment_id := "env1", rest := "r" }] "missing"
  exact ⟨h.1, h.2.2 (by decide)⟩

/-!
The schema created by `initializeDatabase` (src/index.ts): the three
`CREATE TABLE IF NOT EXISTS` statements transcribed column by column.
-/

/-- A column definition from the `CREATE TABLE` statements executed by
`initializeDatabase`. -/
structure ColumnDef where
  name : String
  sqlType : String
  notNull : Bool
  primaryKey : Bool
  defaultValue : Option String
deriving DecidableEq, Repr

/-- Shorthand constructor for a column definition. -/
def mkCol (name sqlType : String) (notNull primaryKey : Bool)
    (defaultValue : Option String) : ColumnDef :=
  { name := name, sqlType := sqlType, notNull := notNull,
    primaryKey := primaryKey, defaultValue := defaultValue }

/-- The `audit_events` table. -/
def auditEventsColumns : List ColumnDef :=
  [ mkCol "id" "UUID" false true none,
    mkCol "action" "VARCHAR(255)" true false none,
    mkCol "crud" "VARCHAR(10)" true false none,
    mkCol "group_id" "VARCHAR(255)" false false none,
    mkCol "group_name" "VARCHAR(255)" false false none,
    mkCol "actor_id" "VARCHAR(255)" false false none,
    mkCol "actor_name" "VARCHAR(255)" false false none,
    mkCol "actor_href" "VARCHAR(1024)" false false none,
    mkCol "target_id" "VARCHAR(255)" false false none,
    mkCol "target_name" "VARCHAR(255)" false false none,
    mkCol "target_href" "VARCHAR(1024)" false false none,
    mkCol "target_type" "VARCHAR(255)" false false none,
    mkCol "source_ip" "VARCHAR(50)" false false none,
    mkCol "description" "TEXT" false false none,
    mkCol "is_anonymous" "BOOLEAN" false false (some "FALSE"),
    mkCol "is_failure" "BOOLEAN" false false (some "FALSE"),
    mkCol "component" "VARCHAR(255)" false false none,
    mkCol "version" "VARCHAR(50)" false false none,
    mkCol "external_id" "VARCHAR(255)" false false none,
    mkCol "fields" "JSONB" false false none,
    mkCol "metadata" "JSONB" false false none,
    mkCol "created_at" "TIMESTAMP" true false none,
    mkCol "received_at" "TIMESTAMP" true false none,
    mkCol "project_id" "VARCHAR(255)" true false none,
    mkCol "environment_id" "VARCHAR(255)" true false none,
    mkCol "hash" "VARCHAR(128)" true false none,
    mkCol "previous_hash" "VARCHAR(128)" false false none,
    mkCol "signature" "TEXT" true false none,
    mkCol "actor_fields" "JSONB" false false none,
    mkCol "target_fields" "JSONB" false false none ]

/-- The `ingest_task` table. -/
def ingestTaskColumns : List ColumnDef :=
  [ mkCol "id" "UUID" false true none,
    mkCol "original_event" "JSONB" true false none,
    mkCol "project_id" "VARCHAR(255)" true false none,
    mkCol "environment_id" "VARCHAR(255)" true false none,
    mkCol "new_event_id" "UUID" true false none,
    mkCol "received" "TIMESTAMP" true false none,
    mkCol "processed" "BOOLEAN" false false (some "FALSE") ]

/-- The `backlog` table. -/
def backlogColumns : List ColumnDef :=
  [ mkCol "id" "SERIAL" false true none,
    mkCol "project_id" "VARCHAR(255)" true false none,
    mkCol "environment_id" "VARCHAR(255)" true false none,
    mkCol "new_event_id" "UUID" true false none,
    mkCol "received" "TIMESTAMP" true false none,
    mkCol "original_event" "JSONB" true false none,
    mkCol "processed" "BOOLEAN" false false (some "FALSE"),
    mkCol "attempts" "INTEGER" false false (some "0"),
    mkCol "last_attempt" "TIMESTAMP" false false none ]

/-- Look up a column of a table by name. -/
def findCol (cols : List ColumnDef) (name : String) : Option ColumnDef :=
  cols.find? (fun c => c.name == name)

/-- A row — a partial assignment of SQL values to column names — satisfies
the `NOT NULL` constraints of a table: every non-nullable column is
present. -/
def rowConforms (cols : List ColumnDef) (row : String → Option String) : Bool :=
  cols.all (fun c => !c.notNull || (row c.name).isSome)

/-- A row that populates every `audit_events` column except
`previous_hash` — the shape of a genesis event. -/
def genesisLikeRow : String → Option String :=
  fun n => if n == "previous_hash" then none else some "v"

/-- C6: in the `audit_events` schema, `hash` and `signature` are
non-nullable while `previous_hash` is nullable: every conforming row
carries a hash and a signature, and a row with `previous_hash` NULL (a
genesis event) still conforms. -/
theorem audit_events_chain_nullability :
    (findCol auditEventsColumns "hash").map (fun c => c.notNull) = some true ∧
    (findCol auditEventsColumns "signature").map (fun c => c.notNull) = some true ∧
    (findCol auditEventsColumns "previous_hash").map (fun c => c.notNull) = some false ∧
    (∀ row, rowConforms auditEventsColumns row = true →
      (row "hash").isSome = true ∧ (row "signature").isSome = true) ∧
    rowConforms auditEventsColumns genesisLikeRow = true ∧
    genesisLikeRow "previous_hash" = none := by
  refine ⟨rfl, rfl, rfl, ?_, by decide, by decide⟩
  intro row hrow
  have hall := List.all_eq_true.mp hrow
  constructor
  · have h := hall (mkCol "hash" "VARCHAR(128)" true false none) (by decide)
    simpa [mkCol] using h
  · have h := hall (mkCol "signature" "TEXT" true false none) (by decide)
    simpa [mkCol] using h

/-- Witness for C6: the genesis-shaped row conforms, so the theorem yields
that it carries a hash. -/
theorem audit_events_chain_nullability_witness :
    (genesisLikeRow "hash").isSome = true ∧ (genesisLikeRow "signature").isSome = true :=
  audit_events_chain_nullability.2.2.2.1 genesisLikeRow (by decide)

/-- Modelled from the spec: `MAX_ATTEMPTS`, the Backlog Worker's retry
bound, is not under src/ (only the schema it acts on is); the spec fixes
its default at 10. -/
def MAX_ATTEMPTS : Nat := 10

/-- A row of the `backlog` table. -/
structure BacklogRow where
  id : Nat
  project_id : String
  environment_id : String
  new_event_id : String
  received : Int
  original_event : String
  processed : Bool
  attempts : Nat
  last_attempt : Option Int
deriving DecidableEq, Repr

/-- A backlog row freshly inserted with only the required columns
supplied: `processed` and `attempts` take their schema defaults `FALSE`
and `0`; `last_attempt` is left NULL. -/
def newBacklogRow (id : Nat) (project_id environment_id new_event_id : String)
    (received : Int) (original_event : String) : BacklogRow :=
  { id := id, project_id := project_id, environment_id := environment_id,
    new_event_id := new_event_id, received := received,
    original_event := original_event,
    processed := false, attempts := 0, last_attempt := none }

/-- Invariant I6, backlog progress: a row is processed or still has retry
budget. -/
def backlogProgress (r : BacklogRow) : Prop :=
  r.processed = true ∨ r.attempts < MAX_ATTEMPTS

/-- C7: the `backlog` schema defaults `processed` to `FALSE` and
`attempts` to `0`, so every freshly enqueued row starts with
`processed = false` and `attempts = 0` and satisfies the backlog-progress
invariant I6. -/
theorem new_backlog_row_progress (id : Nat) (p e n : String)
    (received : Int) (orig : String) :
    (findCol backlogColumns "processed").map (fun c => c.defaultValue) =
      some (some "FALSE") ∧
    (findCol backlogColumns "attempts").map (fun c => c.defaultValue) =
      some (some "0") ∧
    (newBacklogRow id p e n received orig).processed = false ∧
    (newBacklogRow id p e n received orig).attempts = 0 ∧
    backlogProgress (newBacklogRow id p e n received orig) :=
  ⟨rfl, rfl, rfl, rfl, Or.inr (by simp [newBacklogRow, MAX_ATTEMPTS])⟩

/-- C1 counterexample: `setContext("p1", "")` sets both context fields to
strings (neither is null), yet `createEvent` still fails with the
context-missing error instead of delegating to the event service — the
empty string is treated as unset. -/
theorem createEvent_after_setContext_empty_fails :
    AuditLogClient.createEvent
        (AuditLogClient.setContext AuditLogClient.initialState "p1" "")
        { project_id := none, environment_id := none, rest := "r" } =
      .error contextNotSetMsg := rfl
